/-
Verification of the Product Marketer AI assistant (src/2.py) against its
natural-language specification.

The program is a single Streamlit script.  Its pieces, shallowly embedded
here:

* `paragraphPhrase` — the `paragraph_map.get(description_length, "2 paragraphs")`
  lookup inside `generate_content` (src/2.py lines 32-37).
* `buildPrompt` — the f-string prompt construction inside `generate_content`
  (src/2.py lines 39-73).  The Python f-string is transcribed chunk by chunk,
  with the interpolated fields spliced between literal chunks exactly where
  the source puts them.  `num_descriptions` defaults to 2 in the source and
  every call site uses that default.
* `SessionState`, `stepGenerate`, `stepRegenerate`, `step`, `run` — the
  Streamlit session state (`st.session_state`) and the generate / regenerate
  button handlers (src/2.py lines 133-172).  The completion client is
  external; the outcome of one call is modelled as an `Except String String`
  parameter (error message raised, or returned text).  The handlers report
  which prompt, if any, was sent over the network (`promptSent`).
* `downloadFilename`, `downloadData` — the `st.download_button` wiring
  (src/2.py lines 176-183).
* `startup`, `appPromptsSent` — the credential check at the top of the script
  (src/2.py lines 10-20): `os.getenv` may return no value, and `st.stop()`
  terminates the script so that no widget is rendered and no interaction or
  network call can happen afterwards.

Apostrophes inside string literals are written with the escape `\x27`.
-/
import Mathlib

namespace ProductMarketer

/-- Embeds `paragraph_map.get(description_length, "2 paragraphs")`:
the three radio-button labels map to their paragraph-count phrases and any
other value falls back to the default `"2 paragraphs"`. -/
def paragraphPhrase (description_length : String) : String :=
  if description_length = "Short (1 paragraph)" then "1 paragraph"
  else if description_length = "Medium (2 paragraphs)" then "2 paragraphs"
  else if description_length = "Long (3 paragraphs)" then "3 paragraphs"
  else "2 paragraphs"

/-- Literal chunk of the prompt f-string before `{product_name}`. -/
def promptPart0 : String :=
  "\n    You are an expert product marketer and e-commerce copywriter. Your task is to create engaging, unique, and SEO-friendly product descriptions\n    and a list of relevant hashtags for social media.\n\n    Here are the product details:\n    - **Product Name:** "

/-- Literal chunk between `{product_name}` and `{product_category}`. -/
def promptPart1 : String := "\n    - **Product Category:** "

/-- Literal chunk between `{product_category}` and `{key_features}`. -/
def promptPart2 : String := "\n    - **Key Features:**\n    "

/-- Literal chunk between `{key_features}` and `{target_audience}`. -/
def promptPart3 : String := "\n    - **Target Audience:** "

/-- Literal chunk between `{target_audience}` and `{tone_of_voice}`. -/
def promptPart4 : String := "\n    - **Tone of Voice:** "

/-- Literal chunk between `{tone_of_voice}` and `{actual_description_length}`. -/
def promptPart5 : String := "\n    - **Desired Description Length:** "

/-- Whitespace before the sentence that carries `{num_descriptions}`. -/
def promptPart6a : String := "\n\n    "

/-- Start of the sentence that carries `{num_descriptions}`. -/
def promptPart6b : String := "Please generate "

/-- Text right after `{num_descriptions}`, up to the end of the phrase the
spec quotes. -/
def promptPart7a : String := " distinct product description(s)"

/-- Rest of the chunk between `{num_descriptions}` and the second
`{actual_description_length}`. -/
def promptPart7b : String :=
  " that highlight the product\x27s benefits,\n    address the target audience\x27s needs, and resonate with the specified tone.\n    Each description should be approximately "

/-- Literal chunk after the second `{actual_description_length}`: the
closing instructions and the fixed output-format template, which names the
labelled blocks `**Description 1:**`, `**Hashtags 1:**`, `**Description 2:**`
and `**Hashtags 2:**` and no others. -/
def promptPart8 : String :=
  " long.\n    \n    After each description, generate a comma-separated list of at least 10 relevant hashtags for social media,\n    starting with \x27#\x27.\n\n    Format your output clearly as follows:\n\n    ---\n    **Description 1:**\n    [Generated Description 1 here]\n    \n    **Hashtags 1:** #[hashtag1], #[hashtag2], #[hashtag3], ...\n    ---\n\n    **Description 2:**\n    [Generated Description 2 here]\n    \n    **Hashtags 2:** #[hashtag1], #[hashtag2], #[hashtag3], ...\n    ---\n    "

/-- The prompt built by `generate_content` (src/2.py lines 39-73): the
Python f-string with each `{...}` interpolation spliced between the literal
chunks above.  `num_descriptions` is rendered in decimal as Python renders
an `int`. -/
def buildPrompt (product_name product_category key_features target_audience
    tone_of_voice description_length : String) (num_descriptions : Nat) : String :=
  promptPart0 ++ product_name ++ promptPart1 ++ product_category ++
  promptPart2 ++ key_features ++ promptPart3 ++ target_audience ++
  promptPart4 ++ tone_of_voice ++ promptPart5 ++
  paragraphPhrase description_length ++ promptPart6a ++ promptPart6b ++
  Nat.repr num_descriptions ++ promptPart7a ++ promptPart7b ++
  paragraphPhrase description_length ++ promptPart8

/-- Substring relation on strings, via the character lists. -/
@[reducible] def substrOf (t s : String) : Prop := t.data <:+: s.data

/-- Whether the pattern is an initial segment of the character list. -/
def startsWith : List Char → List Char → Bool
  | [], _ => true
  | _ :: _, [] => false
  | p :: ps, c :: cs => p == c && startsWith ps cs

/-- Number of positions of the character list at which the pattern starts. -/
def countOcc (pat : List Char) : List Char → Nat
  | [] => 0
  | c :: cs => (if startsWith pat (c :: cs) then 1 else 0) + countOcc pat cs

/-- Number of labelled description blocks a prompt announces: occurrences of
the label marker `"**Description "` (each labelled description block of the
format template opens with it, and each is paired with one labelled hashtag
list). -/
def numFormatPairs (s : String) : Nat := countOcc "**Description ".data s.data

/-- Executable substring check on character lists. -/
def containsSub (pat : List Char) : List Char → Bool
  | [] => startsWith pat []
  | c :: cs => startsWith pat (c :: cs) || containsSub pat cs

/-- The form widget values at the moment a button is clicked: the six input
widgets declared at src/2.py lines 101-128.  Streamlit re-runs the script on
every click, so a handler reads whatever these widgets hold at that moment. -/
structure FormInputs where
  product_name : String
  product_category : String
  key_features : String
  target_audience : String
  tone_of_voice : String
  description_length : String
deriving DecidableEq

/-- The `st.session_state` slots the script uses: `generated_output`
(the last completion text) and `product_name_for_download` (the product
name stored for the download filename).  Each is `none` while the key is
absent from the session. -/
structure SessionState where
  generated_output : Option String
  product_name_for_download : Option String
deriving DecidableEq

/-- Session state before any button has been clicked: neither key is set. -/
def initialState : SessionState := ⟨none, none⟩

/-- What the handler renders to the user on one click. -/
inductive Display where
  | nothing
  | warning (msg : String)
  | successContent (content : String)
  | errorMsg (msg : String)
deriving DecidableEq

/-- Result of running one button handler: the updated session state, what
was rendered, and the prompt sent over the network (`none` when no network
call was attempted). -/
structure StepResult where
  state : SessionState
  display : Display
  promptSent : Option String
deriving DecidableEq

/-- The warning at src/2.py line 136. -/
def emptyFieldsWarning : String :=
  "Please provide at least a Product Name and Key Features to generate content."

/-- The error message at src/2.py line 151 for an exception `e`. -/
def generateErrorMsg (e : String) : String :=
  "An error occurred during API call: " ++ e

/-- The error message at src/2.py line 170 for an exception `e`. -/
def regenerateErrorMsg (e : String) : String :=
  "An error occurred during regeneration: " ++ e

/-- The generate button handler (src/2.py lines 133-153).  If the product
name or the key-features text is empty (Python falsiness of a string), a
warning is shown and nothing else happens.  Otherwise `generate_content` is
called with the current widget values and the default `num_descriptions = 2`;
on success both session slots are overwritten and the content is rendered,
on an exception an error is shown and the session state is left untouched. -/
def stepGenerate (st : SessionState) (form : FormInputs)
    (api : Except String String) : StepResult :=
  if form.product_name = "" ∨ form.key_features = "" then
    ⟨st, Display.warning emptyFieldsWarning, none⟩
  else
    let prompt := buildPrompt form.product_name form.product_category
      form.key_features form.target_audience form.tone_of_voice
      form.description_length 2
    match api with
    | Except.ok out =>
        ⟨⟨some out, some form.product_name⟩, Display.successContent out, some prompt⟩
    | Except.error e =>
        ⟨st, Display.errorMsg (generateErrorMsg e), some prompt⟩

/-- The regenerate button handler (src/2.py lines 162-172).  It calls
`generate_content` with the current widget values (the same expression the
generate handler uses) and overwrites only `generated_output` on success;
on an exception an error is shown and the session state is left untouched.
It performs no emptiness check and never touches
`product_name_for_download`. -/
def stepRegenerate (st : SessionState) (form : FormInputs)
    (api : Except String String) : StepResult :=
  let prompt := buildPrompt form.product_name form.product_category
    form.key_features form.target_audience form.tone_of_voice
    form.description_length 2
  match api with
  | Except.ok out =>
      ⟨⟨some out, st.product_name_for_download⟩, Display.successContent out, some prompt⟩
  | Except.error e =>
      ⟨st, Display.errorMsg (regenerateErrorMsg e), some prompt⟩

/-- The guard at src/2.py line 156: the regenerate and download widgets are
rendered only when `generated_output` is present and truthy (a non-empty
string). -/
def regenAvailable (st : SessionState) : Bool :=
  match st.generated_output with
  | some s => decide (s ≠ "")
  | none => false

/-- One user action: a click on generate or on regenerate, together with the
widget values at that moment and the outcome of the one completion call the
handler would make. -/
inductive Action where
  | generate (form : FormInputs) (api : Except String String)
  | regenerate (form : FormInputs) (api : Except String String)

/-- One script re-run triggered by a button click.  A regenerate click can
only happen when the button is rendered (`regenAvailable`); otherwise the
script run changes nothing. -/
def step (st : SessionState) : Action → StepResult
  | Action.generate form api => stepGenerate st form api
  | Action.regenerate form api =>
      if regenAvailable st then stepRegenerate st form api
      else ⟨st, Display.nothing, none⟩

/-- Session state after a sequence of clicks. -/
def run (st : SessionState) : List Action → SessionState
  | [] => st
  | a :: rest => run (step st a).state rest

/-- All prompts sent over the network during a sequence of clicks, in order. -/
def promptsSent (st : SessionState) : List Action → List String
  | [] => []
  | a :: rest =>
      (step st a).promptSent.toList ++ promptsSent (step st a).state rest

/-- The filename of `st.download_button` (src/2.py line 176): the stored
`product_name_for_download` value, with the fallback `product` when the key
is absent, followed by the fixed suffix. -/
def downloadFilename (st : SessionState) : String :=
  st.product_name_for_download.getD "product" ++ "_descriptions_hashtags.txt"

/-- The payload of `st.download_button` (src/2.py line 179): the stored
`generated_output` string encoded as UTF-8 bytes by its encode call; `none`
when the slot is absent (the widget is only rendered when the slot holds a
non-empty string). -/
def downloadData (st : SessionState) : Option ByteArray :=
  st.generated_output.map String.toUTF8

/-- The configuration error at src/2.py line 13. -/
def credentialErrorMsg : String :=
  "Groq API key not found. Please set it in a \x27.env\x27 file or as an environment variable (GROQ_API_KEY)."

/-- Outcome of the top of the script (src/2.py lines 10-14): either the app
halts at `st.stop()` showing a configuration error, or it keeps running with
the credential. -/
inductive AppStartup where
  | halted (errorShown : String)
  | running (apiKey : String)
deriving DecidableEq

/-- The credential check: `groq_api_key = os.getenv("GROQ_API_KEY")` followed
by `if not groq_api_key: st.error(...); st.stop()`.  `os.getenv` yields no
value when the variable is unset; Python treats both `None` and the empty
string as falsy. -/
def startup (envKey : Option String) : AppStartup :=
  match envKey with
  | none => AppStartup.halted credentialErrorMsg
  | some k =>
      if k = "" then AppStartup.halted credentialErrorMsg
      else AppStartup.running k

/-- All prompts the whole app ever sends for a given environment and click
sequence.  `st.stop()` ends the script run before any widget below it is
rendered, so a halted app accepts no clicks and sends nothing. -/
def appPromptsSent (envKey : Option String) (acts : List Action) : List String :=
  match startup envKey with
  | AppStartup.halted _ => []
  | AppStartup.running _ => promptsSent initialState acts

/-- Discriminates regenerate clicks. -/
def isRegen : Action → Bool
  | Action.generate _ _ => false
  | Action.regenerate _ _ => true

/-- Form values of the worked example in the spec (section 8). -/
def exampleForm : FormInputs :=
  ⟨"Test Mug", "Kitchen", "- Keeps drinks hot", "Office workers", "Friendly",
    "Short (1 paragraph)"⟩

/-- Form values after the user edits the product-name widget following a
successful generation. -/
def editedForm : FormInputs :=
  { exampleForm with product_name := "Changed Mug" }

set_option maxRecDepth 10000
set_option maxHeartbeats 1000000

/-- Produces a `substrOf` fact from an explicit decomposition of the ambient
string into a prefix, the substring, and a suffix. -/
theorem substrOf_intro (p t q : String) {s : String} (h : p ++ t ++ q = s) :
    substrOf t s :=
  ⟨p.data, q.data, by rw [← h]; simp [String.data_append]⟩

/-- Soundness of `startsWith` for the list prefix relation. -/
theorem startsWith_iff (p : List Char) : ∀ l : List Char,
    startsWith p l = true ↔ p <+: l := by
  induction p with
  | nil => intro l; simp [startsWith, List.nil_prefix]
  | cons a ps ih =>
    intro l
    cases l with
    | nil => simp [startsWith]
    | cons b ls => simp [startsWith, List.cons_prefix_cons, ih, And.comm]

/-- Soundness of `containsSub` for the list infix relation. -/
theorem containsSub_iff (pat : List Char) : ∀ l : List Char,
    containsSub pat l = true ↔ pat <:+: l := by
  intro l
  induction l with
  | nil => simp [containsSub, startsWith_iff, List.prefix_nil]
  | cons c cs ih => simp [containsSub, startsWith_iff, List.infix_cons_iff, ih]

/-- Transfers a positive run of the executable check to `substrOf`. -/
theorem substrOf_of_check {t s : String} (h : containsSub t.data s.data = true) :
    substrOf t s :=
  (containsSub_iff t.data s.data).mp h

/-- Transfers a negative run of the executable check to `¬ substrOf`. -/
theorem not_substrOf_of_check {t s : String} (h : containsSub t.data s.data = false) :
    ¬ substrOf t s := by
  intro hc
  have hc2 : containsSub t.data s.data = true := (containsSub_iff t.data s.data).mpr hc
  rw [h] at hc2
  exact absurd hc2 (by decide)

/-- Claim C2: the Prompt Builder maps the three length selections to the
literal phrases `1 paragraph`, `2 paragraphs`, `3 paragraphs`, and maps every
other value to the default `2 paragraphs`. -/
theorem paragraphPhrase_maps_lengths :
    paragraphPhrase "Short (1 paragraph)" = "1 paragraph"
    ∧ paragraphPhrase "Medium (2 paragraphs)" = "2 paragraphs"
    ∧ paragraphPhrase "Long (3 paragraphs)" = "3 paragraphs"
    ∧ ∀ s : String, s ≠ "Short (1 paragraph)" → s ≠ "Medium (2 paragraphs)" →
        s ≠ "Long (3 paragraphs)" → paragraphPhrase s = "2 paragraphs" := by
  refine ⟨rfl, rfl, rfl, ?_⟩
  intro s h1 h2 h3
  unfold paragraphPhrase
  rw [if_neg h1, if_neg h2, if_neg h3]

/-- Witness for claim C2 at the unrecognized value `Epic (7 paragraphs)`. -/
theorem paragraphPhrase_maps_lengths_witness :
    paragraphPhrase "Epic (7 paragraphs)" = "2 paragraphs" :=
  paragraphPhrase_maps_lengths.2.2.2 "Epic (7 paragraphs)" (by decide) (by decide) (by decide)

/-- Claim C1, counterexample: with variant count 3 the built prompt asks in
words for 3 descriptions, yet its explicit output-format template still shows
exactly 2 labelled description/hashtag block pairs — there is no third
labelled block, so the format instructions do not request exactly N pairs for
every N. -/
theorem prompt_count_three_template_still_two_pairs :
    numFormatPairs (buildPrompt "Test Mug" "Kitchen" "- Keeps drinks hot" "Office workers"
        "Friendly" "Short (1 paragraph)" 3) = 2
    ∧ numFormatPairs (buildPrompt "Test Mug" "Kitchen" "- Keeps drinks hot" "Office workers"
        "Friendly" "Short (1 paragraph)" 3) ≠ 3
    ∧ ¬ substrOf "**Description 3" (buildPrompt "Test Mug" "Kitchen" "- Keeps drinks hot"
        "Office workers" "Friendly" "Short (1 paragraph)" 3)
    ∧ substrOf "Please generate 3 distinct product description(s)"
        (buildPrompt "Test Mug" "Kitchen" "- Keeps drinks hot" "Office workers" "Friendly"
          "Short (1 paragraph)" 3) := by
  exact ⟨by decide, by decide, not_substrOf_of_check (by decide),
    substrOf_of_check (by decide)⟩

/-- Claim C1, amended: the built prompt always asks in words for exactly N
distinct descriptions, while its explicit output-format template shows a
fixed pair of labelled description/hashtag blocks; for the example inputs
with count 2 the prompt contains the substring `1 paragraph` and its format
template shows exactly 2 labelled pairs, matching the requested count. -/
theorem prompt_requests_count_in_text_and_template_fixed :
    (∀ (pn pc kf ta tv dl : String) (n : Nat),
        substrOf ("Please generate " ++ Nat.repr n ++ " distinct product description(s)")
          (buildPrompt pn pc kf ta tv dl n))
    ∧ substrOf "1 paragraph"
        (buildPrompt "Test Mug" "Kitchen" "- Keeps drinks hot" "Office workers" "Friendly"
          "Short (1 paragraph)" 2)
    ∧ numFormatPairs
        (buildPrompt "Test Mug" "Kitchen" "- Keeps drinks hot" "Office workers" "Friendly"
          "Short (1 paragraph)" 2) = 2 := by
  refine ⟨?_, substrOf_of_check (by decide), by decide⟩
  intro pn pc kf ta tv dl n
  exact substrOf_intro
    (promptPart0 ++ pn ++ promptPart1 ++ pc ++ promptPart2 ++ kf ++ promptPart3 ++ ta ++
      promptPart4 ++ tv ++ promptPart5 ++ paragraphPhrase dl ++ promptPart6a)
    ("Please generate " ++ Nat.repr n ++ " distinct product description(s)")
    (promptPart7b ++ paragraphPhrase dl ++ promptPart8)
    (by simp [buildPrompt, promptPart6b, promptPart7a, String.append_assoc])

/-- Claim C7: the built prompt contains the supplied product name, category,
feature text and audience strings verbatim as substrings. -/
theorem prompt_contains_fields_verbatim (pn pc kf ta tv dl : String) (n : Nat) :
    substrOf pn (buildPrompt pn pc kf ta tv dl n)
    ∧ substrOf pc (buildPrompt pn pc kf ta tv dl n)
    ∧ substrOf kf (buildPrompt pn pc kf ta tv dl n)
    ∧ substrOf ta (buildPrompt pn pc kf ta tv dl n) := by
  refine ⟨?_, ?_, ?_, ?_⟩
  · exact substrOf_intro promptPart0 pn
      (promptPart1 ++ pc ++ promptPart2 ++ kf ++ promptPart3 ++ ta ++ promptPart4 ++ tv ++
        promptPart5 ++ paragraphPhrase dl ++ promptPart6a ++ promptPart6b ++ Nat.repr n ++
        promptPart7a ++ promptPart7b ++ paragraphPhrase dl ++ promptPart8)
      (by simp [buildPrompt, String.append_assoc])
  · exact substrOf_intro (promptPart0 ++ pn ++ promptPart1) pc
      (promptPart2 ++ kf ++ promptPart3 ++ ta ++ promptPart4 ++ tv ++
        promptPart5 ++ paragraphPhrase dl ++ promptPart6a ++ promptPart6b ++ Nat.repr n ++
        promptPart7a ++ promptPart7b ++ paragraphPhrase dl ++ promptPart8)
      (by simp [buildPrompt, String.append_assoc])
  · exact substrOf_intro (promptPart0 ++ pn ++ promptPart1 ++ pc ++ promptPart2) kf
      (promptPart3 ++ ta ++ promptPart4 ++ tv ++
        promptPart5 ++ paragraphPhrase dl ++ promptPart6a ++ promptPart6b ++ Nat.repr n ++
        promptPart7a ++ promptPart7b ++ paragraphPhrase dl ++ promptPart8)
      (by simp [buildPrompt, String.append_assoc])
  · exact substrOf_intro
      (promptPart0 ++ pn ++ promptPart1 ++ pc ++ promptPart2 ++ kf ++ promptPart3) ta
      (promptPart4 ++ tv ++
        promptPart5 ++ paragraphPhrase dl ++ promptPart6a ++ promptPart6b ++ Nat.repr n ++
        promptPart7a ++ promptPart7b ++ paragraphPhrase dl ++ promptPart8)
      (by simp [buildPrompt, String.append_assoc])

/-- Claim C4: when the completion call raises during generate or regenerate,
the handler shows the corresponding error message and the session state is
left exactly as it was. -/
theorem api_error_surfaced_and_state_unchanged (st : SessionState) (form : FormInputs)
    (e : String) (hname : form.product_name ≠ "") (hfeat : form.key_features ≠ "") :
    (stepGenerate st form (Except.error e)).state = st
    ∧ (stepGenerate st form (Except.error e)).display = Display.errorMsg (generateErrorMsg e)
    ∧ (stepRegenerate st form (Except.error e)).state = st
    ∧ (stepRegenerate st form (Except.error e)).display
        = Display.errorMsg (regenerateErrorMsg e) := by
  unfold stepGenerate stepRegenerate
  rw [if_neg (not_or.mpr ⟨hname, hfeat⟩)]
  exact ⟨rfl, rfl, rfl, rfl⟩

/-- Witness for claim C4: a failing call on the empty initial session and on
the example form leaves the session empty and shows the error. -/
theorem api_error_surfaced_and_state_unchanged_witness :
    (stepGenerate initialState exampleForm (Except.error "boom")).state = initialState
    ∧ (stepGenerate initialState exampleForm (Except.error "boom")).display
        = Display.errorMsg (generateErrorMsg "boom")
    ∧ (stepRegenerate initialState exampleForm (Except.error "boom")).state = initialState
    ∧ (stepRegenerate initialState exampleForm (Except.error "boom")).display
        = Display.errorMsg (regenerateErrorMsg "boom") :=
  api_error_surfaced_and_state_unchanged initialState exampleForm "boom"
    (by decide) (by decide)

/-- Claim C3, code-bug evidence: after a successful generation with the
example form, editing the product name to `Changed Mug` and clicking
regenerate sends a prompt built from the current widget values, not from the
inputs of the last submitted generate action, and overwrites the last-result
slot with the new output. -/
theorem regenerate_reads_current_widgets :
    (step (step initialState (Action.generate exampleForm (Except.ok "first output"))).state
        (Action.regenerate editedForm (Except.ok "second output"))).promptSent
      = some (buildPrompt "Changed Mug" "Kitchen" "- Keeps drinks hot" "Office workers"
          "Friendly" "Short (1 paragraph)" 2)
    ∧ (step (step initialState (Action.generate exampleForm (Except.ok "first output"))).state
        (Action.regenerate editedForm (Except.ok "second output"))).promptSent
      ≠ some (buildPrompt "Test Mug" "Kitchen" "- Keeps drinks hot" "Office workers"
          "Friendly" "Short (1 paragraph)" 2)
    ∧ (step (step initialState (Action.generate exampleForm (Except.ok "first output"))).state
        (Action.regenerate editedForm (Except.ok "second output"))).state.generated_output
      = some "second output" := by
  refine ⟨rfl, ?_, rfl⟩
  show some (buildPrompt "Changed Mug" "Kitchen" "- Keeps drinks hot" "Office workers"
      "Friendly" "Short (1 paragraph)" 2)
    ≠ some (buildPrompt "Test Mug" "Kitchen" "- Keeps drinks hot" "Office workers"
      "Friendly" "Short (1 paragraph)" 2)
  intro hEq
  injection hEq with h1
  exact absurd (congrArg String.length h1) (by decide)

/-- Claim C5: with the credential absent from the environment the script
halts at startup showing the configuration error, and no prompt is ever sent
over the network no matter what the user attempts afterwards. -/
theorem missing_credential_halts_no_network :
    startup none = AppStartup.halted credentialErrorMsg
    ∧ ∀ acts : List Action, appPromptsSent none acts = [] :=
  ⟨rfl, fun _ => rfl⟩

/-- Claim C6: in every reachable session state that holds a last result, the
download payload is exactly the UTF-8 encoding of that result. -/
theorem download_bytes_utf8_of_last_result (acts : List Action) (s : String)
    (h : (run initialState acts).generated_output = some s) :
    downloadData (run initialState acts) = some (String.toUTF8 s) := by
  unfold downloadData
  rw [h]
  rfl

/-- Witness for claim C6 after one successful generation. -/
theorem download_bytes_utf8_of_last_result_witness :
    downloadData (run initialState [Action.generate exampleForm (Except.ok "hello")])
      = some (String.toUTF8 "hello") :=
  download_bytes_utf8_of_last_result [Action.generate exampleForm (Except.ok "hello")]
    "hello" (by decide)

/-- Claim C8: after a successful generation the download file is named from
the product name plus the fixed suffix `_descriptions_hashtags.txt` and its
content is the UTF-8 encoding of the generation result. -/
theorem download_file_name_and_content (st : SessionState) (form : FormInputs) (out : String)
    (hname : form.product_name ≠ "") (hfeat : form.key_features ≠ "") :
    downloadFilename (stepGenerate st form (Except.ok out)).state
      = form.product_name ++ "_descriptions_hashtags.txt"
    ∧ downloadData (stepGenerate st form (Except.ok out)).state
      = some (String.toUTF8 out) := by
  unfold stepGenerate
  rw [if_neg (not_or.mpr ⟨hname, hfeat⟩)]
  exact ⟨rfl, rfl⟩

/-- Witness for claim C8 on the example form. -/
theorem download_file_name_and_content_witness :
    downloadFilename (stepGenerate initialState exampleForm (Except.ok "hello")).state
      = "Test Mug" ++ "_descriptions_hashtags.txt"
    ∧ downloadData (stepGenerate initialState exampleForm (Except.ok "hello")).state
      = some (String.toUTF8 "hello") :=
  download_file_name_and_content initialState exampleForm "hello" (by decide) (by decide)

/-- Claim C9: when the product name or the key features are empty, the
generate handler shows the warning, changes nothing and sends no prompt —
the check lives in the caller, while the Prompt Builder itself accepts empty
field values and still assembles the full template around them. -/
theorem empty_fields_block_generation (st : SessionState) (form : FormInputs)
    (api : Except String String) (h : form.product_name = "" ∨ form.key_features = "") :
    (stepGenerate st form api).state = st
    ∧ (stepGenerate st form api).display = Display.warning emptyFieldsWarning
    ∧ (stepGenerate st form api).promptSent = none
    ∧ ∀ (pc ta tv dl : String) (n : Nat),
        substrOf promptPart5 (buildPrompt "" pc "" ta tv dl n) := by
  unfold stepGenerate
  rw [if_pos h]
  refine ⟨rfl, rfl, rfl, ?_⟩
  intro pc ta tv dl n
  exact substrOf_intro
    (promptPart0 ++ "" ++ promptPart1 ++ pc ++ promptPart2 ++ "" ++ promptPart3 ++ ta ++
      promptPart4 ++ tv) promptPart5
    (paragraphPhrase dl ++ promptPart6a ++ promptPart6b ++ Nat.repr n ++
      promptPart7a ++ promptPart7b ++ paragraphPhrase dl ++ promptPart8)
    (by simp [buildPrompt, String.append_assoc])

/-- Witness for claim C9 with an empty product name. -/
theorem empty_fields_block_generation_witness :
    (stepGenerate initialState
        ⟨"", "Kitchen", "- Keeps drinks hot", "Office workers", "Friendly",
          "Short (1 paragraph)"⟩ (Except.ok "x")).state = initialState
    ∧ (stepGenerate initialState
        ⟨"", "Kitchen", "- Keeps drinks hot", "Office workers", "Friendly",
          "Short (1 paragraph)"⟩ (Except.ok "x")).display
        = Display.warning emptyFieldsWarning
    ∧ (stepGenerate initialState
        ⟨"", "Kitchen", "- Keeps drinks hot", "Office workers", "Friendly",
          "Short (1 paragraph)"⟩ (Except.ok "x")).promptSent = none
    ∧ substrOf promptPart5
        (buildPrompt "" "Kitchen" "" "Office workers" "Friendly" "Short (1 paragraph)" 2) :=
  have h := empty_fields_block_generation initialState
    ⟨"", "Kitchen", "- Keeps drinks hot", "Office workers", "Friendly",
      "Short (1 paragraph)"⟩ (Except.ok "x") (Or.inl rfl)
  ⟨h.1, h.2.1, h.2.2.1, h.2.2.2 "Kitchen" "Office workers" "Friendly" "Short (1 paragraph)" 2⟩

/-- Runs made only of regenerate clicks never touch the stored download
name. -/
theorem run_regenerates_preserve_download_name (acts : List Action)
    (h : ∀ a ∈ acts, isRegen a = true) (st : SessionState) :
    (run st acts).product_name_for_download = st.product_name_for_download := by
  induction acts generalizing st with
  | nil => rfl
  | cons a rest ih =>
    have ha : isRegen a = true := h a (List.mem_cons_self a rest)
    have hrest : ∀ b ∈ rest, isRegen b = true := fun b hb => h b (List.mem_cons_of_mem a hb)
    cases a with
    | generate form api => simp [isRegen] at ha
    | regenerate form api =>
      show (run (step st (Action.regenerate form api)).state rest).product_name_for_download = _
      rw [ih hrest]
      cases hr : regenAvailable st with
      | false => simp [step, hr]
      | true =>
        cases api with
        | ok out => simp [step, hr, stepRegenerate]
        | error e => simp [step, hr, stepRegenerate]

/-- Claim C10: a successful generate stores the current product name for the
download filename; any later sequence of regenerate clicks updates only the
generated-output slot, so the download filename still derives from the
product name of the most recent successful generate, and one regenerate step
never changes the stored download name of any session state. -/
theorem regenerations_keep_download_filename (st : SessionState) (form : FormInputs)
    (out : String) (acts : List Action)
    (hname : form.product_name ≠ "") (hfeat : form.key_features ≠ "")
    (hacts : ∀ a ∈ acts, isRegen a = true) :
    (run (stepGenerate st form (Except.ok out)).state acts).product_name_for_download
      = some form.product_name
    ∧ downloadFilename (run (stepGenerate st form (Except.ok out)).state acts)
      = form.product_name ++ "_descriptions_hashtags.txt"
    ∧ ∀ (st2 : SessionState) (form2 : FormInputs) (api2 : Except String String),
        (stepRegenerate st2 form2 api2).state.product_name_for_download
          = st2.product_name_for_download := by
  have hpn : (stepGenerate st form (Except.ok out)).state.product_name_for_download
      = some form.product_name := by
    unfold stepGenerate
    rw [if_neg (not_or.mpr ⟨hname, hfeat⟩)]
  have hrun := run_regenerates_preserve_download_name acts hacts
    (stepGenerate st form (Except.ok out)).state
  refine ⟨hrun.trans hpn, ?_, ?_⟩
  · unfold downloadFilename
    rw [hrun.trans hpn]
    rfl
  · intro st2 form2 api2
    cases api2 with
    | ok o => rfl
    | error e => rfl

/-- Witness for claim C10: generate with the example form, then two
regenerate clicks (one with edited widgets, one failing) leave the stored
download name and the download filename derived from the generate-time
product name. -/
theorem regenerations_keep_download_filename_witness :
    (run (stepGenerate initialState exampleForm (Except.ok "first")).state
        [Action.regenerate editedForm (Except.ok "second"),
         Action.regenerate editedForm (Except.error "boom")]).product_name_for_download
      = some "Test Mug"
    ∧ downloadFilename (run (stepGenerate initialState exampleForm (Except.ok "first")).state
        [Action.regenerate editedForm (Except.ok "second"),
         Action.regenerate editedForm (Except.error "boom")])
      = "Test Mug" ++ "_descriptions_hashtags.txt"
    ∧ (stepRegenerate ⟨some "content", some "Stored Name"⟩ editedForm
        (Except.ok "other")).state.product_name_for_download = some "Stored Name" :=
  have h := regenerations_keep_download_filename initialState exampleForm "first"
    [Action.regenerate editedForm (Except.ok "second"),
     Action.regenerate editedForm (Except.error "boom")]
    (by decide) (by decide) (by decide)
  ⟨h.1, h.2.1, h.2.2 ⟨some "content", some "Stored Name"⟩ editedForm (Except.ok "other")⟩

end ProductMarketer
